import Mathlib

/-!
Shallow embedding of the deterministic health-metrics and gap-analysis core of
the nutrition/exercise tracking application (nutrition_analyzer.py,
activity_tracker.py, progress_predictor.py, recommendation_engine.py).
Data frames are embedded as lists of records; missing cells are `Option ℚ`;
Python float arithmetic is embedded as exact rational arithmetic.
-/

namespace Exam

/-- Python `round` (banker's rounding, round-half-to-even) on a rational. -/
def pyRound (q : ℚ) : ℤ :=
  if q - ⌊q⌋ < 1/2 then ⌊q⌋
  else if 1/2 < q - ⌊q⌋ then ⌊q⌋ + 1
  else if ⌊q⌋ % 2 = 0 then ⌊q⌋ else ⌊q⌋ + 1

/-- Python `round(q, 1)`: round to one decimal place. -/
def round1 (q : ℚ) : ℚ := (pyRound (10 * q) : ℚ) / 10

/-- The mean of a list of rationals, `none` when the list is empty
(pandas mean of an all-missing column is NaN). -/
def listMean (l : List ℚ) : Option ℚ :=
  if l = [] then none else some (l.sum / (l.length : ℚ))

/-! Nutrition analyzer (nutrition_analyzer.py). -/

/-- The five macro columns of a food log (`numeric_columns` in
`handle_missing_values`). -/
inductive Nutrient where
  | calories | protein | carbs | fat | fiber
deriving DecidableEq, Repr, Fintype

/-- One row of the user food-log data frame; macro cells may be missing. -/
structure FoodEntry where
  date : String
  meal_type : String
  food_item : String
  calories : Option ℚ
  protein : Option ℚ
  carbs : Option ℚ
  fat : Option ℚ
  fiber : Option ℚ
deriving DecidableEq, Repr

/-- Value of a macro column in one row. -/
def valOf (e : FoodEntry) : Nutrient → Option ℚ
  | .calories => e.calories
  | .protein => e.protein
  | .carbs => e.carbs
  | .fat => e.fat
  | .fiber => e.fiber

/-- Overwrite a macro column in one row. -/
def setVal (e : FoodEntry) : Nutrient → Option ℚ → FoodEntry
  | .calories, v => { e with calories := v }
  | .protein, v => { e with protein := v }
  | .carbs, v => { e with carbs := v }
  | .fat, v => { e with fat := v }
  | .fiber, v => { e with fiber := v }

/-- Mean of the non-missing values of column `n` among rows sharing one
`food_item` (the `groupby("food_item").transform("mean")` value). -/
def item_mean (df : List FoodEntry) (item : String) (n : Nutrient) : Option ℚ :=
  listMean ((df.filter (fun e => e.food_item = item)).filterMap (fun e => valOf e n))

/-- First assignment of the column loop in `handle_missing_values`: fill each
missing cell of column `n` with the same-item mean of the original column. -/
def item_fill (df : List FoodEntry) (n : Nutrient) : List FoodEntry :=
  df.map (fun e =>
    match valOf e n with
    | some _ => e
    | none => setVal e n (item_mean df e.food_item n))

/-- The `df[col].mean()` of the second assignment: the mean of column `n` as
it stands after the per-item fill. -/
def column_mean_filled (df : List FoodEntry) (n : Nutrient) : Option ℚ :=
  listMean ((item_fill df n).filterMap (fun e => valOf e n))

/-- One iteration of the column loop in `handle_missing_values`: fill missing
cells with the same-item mean of the original column, then fill cells still
missing with the mean of the column as it stands after the first fill. -/
def fill_column (df : List FoodEntry) (n : Nutrient) : List FoodEntry :=
  (item_fill df n).map (fun e =>
    match valOf e n with
    | some _ => e
    | none => setVal e n (column_mean_filled df n))

/-- `NutritionAnalyzer.handle_missing_values`: the per-column fill applied to
the five macro columns in order. -/
def handle_missing_values (df : List FoodEntry) : List FoodEntry :=
  [Nutrient.calories, Nutrient.protein, Nutrient.carbs, Nutrient.fat,
    Nutrient.fiber].foldl fill_column df

/-- The distinct dates present in a food log, in order of first appearance
(the index of `groupby("date")`). -/
def foodDates (df : List FoodEntry) : List String := (df.map (·.date)).dedup

/-- Sum of column `n` over the rows of one date (pandas sum skips missing). -/
def dateSum (df : List FoodEntry) (d : String) (n : Nutrient) : ℚ :=
  ((df.filter (fun e => e.date = d)).filterMap (fun e => valOf e n)).sum

/-- Mean over the distinct dates present of the per-date sums of column `n`. -/
def avgDaily (df : List FoodEntry) (n : Nutrient) : ℚ :=
  ((foodDates df).map (fun d => dateSum df d n)).sum / ((foodDates df).length : ℚ)

/-- The `daily_intake` dictionary: average daily intake of each nutrient. -/
structure IntakeVals where
  calories : ℚ
  protein : ℚ
  carbs : ℚ
  fat : ℚ
  fiber : ℚ
deriving DecidableEq, Repr

/-- Lookup in the `daily_intake` dictionary. -/
def intakeOf (d : IntakeVals) : Nutrient → ℚ
  | .calories => d.calories
  | .protein => d.protein
  | .carbs => d.carbs
  | .fat => d.fat
  | .fiber => d.fiber

/-- `NutritionAnalyzer.calculate_daily_intake`: group by date, sum each macro,
then take the mean of the per-date sums. -/
def calculate_daily_intake (df : List FoodEntry) : IntakeVals :=
  ⟨avgDaily df .calories, avgDaily df .protein, avgDaily df .carbs,
    avgDaily df .fat, avgDaily df .fiber⟩

/-- One entry of a gap dictionary. -/
structure GapEntry where
  current : ℚ
  recommended : ℚ
  deficit : ℚ
deriving DecidableEq, Repr

/-- The fixed `recommended_values` table. -/
def target : Nutrient → ℚ
  | .calories => 2000
  | .protein => 50
  | .carbs => 225
  | .fat => 65
  | .fiber => 25

/-- The `nutritional_gaps` dictionary: at most one entry per nutrient. -/
structure NutritionGaps where
  calories : Option GapEntry
  protein : Option GapEntry
  carbs : Option GapEntry
  fat : Option GapEntry
  fiber : Option GapEntry
deriving DecidableEq, Repr

/-- Lookup in the `nutritional_gaps` dictionary. -/
def gapOf (g : NutritionGaps) : Nutrient → Option GapEntry
  | .calories => g.calories
  | .protein => g.protein
  | .carbs => g.carbs
  | .fat => g.fat
  | .fiber => g.fiber

/-- Body of the loop in `identify_nutritional_gaps`: emit an entry when the
intake is below 80 percent of the recommended value. -/
def gapFor (cur rec : ℚ) : Option GapEntry :=
  if cur < rec * (8/10) then some ⟨cur, rec, rec - cur⟩ else none

/-- `NutritionAnalyzer.identify_nutritional_gaps`. -/
def identify_nutritional_gaps (d : IntakeVals) : NutritionGaps :=
  ⟨gapFor d.calories (target .calories), gapFor d.protein (target .protein),
    gapFor d.carbs (target .carbs), gapFor d.fat (target .fat),
    gapFor d.fiber (target .fiber)⟩

/-- Insert into a list kept sorted by descending count. -/
def insertDesc (x : String × ℕ) : List (String × ℕ) → List (String × ℕ)
  | [] => [x]
  | y :: ys => if y.2 ≤ x.2 then x :: y :: ys else y :: insertDesc x ys

/-- Sort string-count pairs by descending count (`value_counts` order). -/
def sortDesc (l : List (String × ℕ)) : List (String × ℕ) :=
  l.foldr insertDesc []

/-- Occurrences of each distinct value of a string column, most frequent
first (`value_counts()`). -/
def valueCounts (col : List String) : List (String × ℕ) :=
  sortDesc (col.dedup.map (fun s => (s, (col.filter (fun t => t = s)).length)))

/-- The `eating_patterns` dictionary (the user food-log schema has no
`category` column, so the conditional `category_distribution` branch of
`analyze_eating_patterns` never fires). -/
structure EatingPatterns where
  avg_meals_per_day : ℚ
  common_foods : List (String × ℕ)
  meal_distribution : List (String × ℚ)
deriving DecidableEq, Repr

/-- `NutritionAnalyzer.analyze_eating_patterns`. -/
def analyze_eating_patterns (df : List FoodEntry) : EatingPatterns :=
  { avg_meals_per_day :=
      (((foodDates df).map
          (fun d => ((df.filter (fun e => e.date = d)).length : ℚ))).sum) /
        ((foodDates df).length : ℚ)
    common_foods := (valueCounts (df.map (·.food_item))).take 10
    meal_distribution :=
      (valueCounts (df.map (·.meal_type))).map
        (fun p => (p.1, (p.2 : ℚ) / (df.length : ℚ))) }

/-- Python `f"{q:.1f}"` on an exactly represented rational. -/
def fmt1 (q : ℚ) : String :=
  let n := pyRound (10 * q)
  let a := n.natAbs
  (if n < 0 then "-" else "") ++ toString (a / 10) ++ "." ++ toString (a % 10)

/-- `NutritionAnalyzer.generate_nutrition_recommendations`; the gap loop runs
in dictionary insertion order calories, protein, fiber. -/
def generate_nutrition_recommendations (g : NutritionGaps) (p : EatingPatterns) :
    List String :=
  (match g.calories with
    | some gi =>
        if gi.deficit > 200 then
          ["Consider increasing caloric intake with nutrient-dense foods."]
        else
          ["Maintain current caloric intake but focus on nutrient quality."]
    | none => []) ++
  (match g.protein with
    | some gi =>
        ["Increase protein intake by " ++ fmt1 gi.deficit ++
          "g daily. Consider adding lean meats, eggs, or legumes."]
    | none => []) ++
  (match g.fiber with
    | some gi =>
        ["Add " ++ fmt1 gi.deficit ++
          "g more fiber daily. Include more fruits, vegetables, and whole grains."]
    | none => []) ++
  (if p.avg_meals_per_day < 3 then
    ["Aim for at least 3 balanced meals per day for better nutrient distribution."]
  else []) ++
  (if p.common_foods.length < 5 then
    ["Increase food variety to ensure diverse nutrient intake."]
  else [])

/-- The value returned by `analyze_food_logs`. -/
structure NutritionAnalysis where
  daily_intake : IntakeVals
  nutritional_gaps : NutritionGaps
  eating_patterns : EatingPatterns
  recommendations : List String
deriving DecidableEq, Repr

/-- `NutritionAnalyzer.get_default_analysis`: the canned fallback for an
empty food log. -/
def get_default_analysis : NutritionAnalysis :=
  { daily_intake := ⟨0, 0, 0, 0, 0⟩
    nutritional_gaps :=
      { calories := some ⟨0, 2000, 2000⟩
        protein := some ⟨0, 50, 50⟩
        carbs := none
        fat := none
        fiber := some ⟨0, 25, 25⟩ }
    eating_patterns := ⟨0, [], []⟩
    recommendations :=
      ["Start logging your food intake to get personalized recommendations",
        "Aim for balanced meals with protein, carbs, and healthy fats",
        "Include plenty of fruits and vegetables for fiber and micronutrients"] }

/-- `NutritionAnalyzer.analyze_food_logs`. -/
def analyze_food_logs (df : List FoodEntry) : NutritionAnalysis :=
  if df = [] then get_default_analysis
  else
    let df2 := handle_missing_values df
    let daily := calculate_daily_intake df2
    let gaps := identify_nutritional_gaps daily
    let patterns := analyze_eating_patterns df2
    ⟨daily, gaps, patterns, generate_nutrition_recommendations gaps patterns⟩

/-- State of the caller's food-log data frame after `analyze_food_logs`
returns: `handle_missing_values` assigns the filled columns back into the
frame that was passed in, so the caller observes the filled frame. -/
def food_df_after_analyze (df : List FoodEntry) : List FoodEntry :=
  if df = [] then df else handle_missing_values df

/-! Activity tracker (activity_tracker.py). -/

/-- The static exercise reference table from `create_sample_exercise_data`:
exercise type, MET value, category. -/
def exercise_data : List (String × ℚ × String) :=
  [("Walking", 3.5, "Cardio"), ("Running", 8.0, "Cardio"),
    ("Cycling", 6.8, "Cardio"), ("Swimming", 6.0, "Cardio"),
    ("Weight Training", 6.0, "Strength"), ("Yoga", 2.5, "Flexibility"),
    ("Pilates", 3.0, "Flexibility"), ("Basketball", 6.5, "Sports"),
    ("Tennis", 5.0, "Sports"), ("Soccer", 7.0, "Sports"),
    ("Dancing", 4.8, "Recreation"), ("Hiking", 6.0, "Outdoor"),
    ("Rowing", 8.5, "Cardio"), ("Elliptical", 5.0, "Cardio"),
    ("Jumping Rope", 10.0, "Cardio"), ("Rock Climbing", 8.0, "Outdoor"),
    ("Martial Arts", 5.0, "Combat"), ("Boxing", 8.0, "Combat"),
    ("Aerobics", 6.0, "Cardio"), ("Stretching", 2.3, "Flexibility"),
    ("Volleyball", 4.0, "Sports"), ("Badminton", 4.5, "Sports"),
    ("Golf", 3.5, "Recreation"), ("Bowling", 3.0, "Recreation"),
    ("Skateboarding", 5.0, "Recreation")]

/-- `self.met_values.get(exercise_type, 5.0)`: MET lookup with default 5.0. -/
def metValue (t : String) : ℚ :=
  ((exercise_data.find? (fun r => r.1 = t)).map (fun r => r.2.1)).getD 5

/-- Category of an exercise type after the left join against the reference
table; `none` for a type absent from the table (a NaN category cell). -/
def categoryOf (t : String) : Option String :=
  (exercise_data.find? (fun r => r.1 = t)).map (fun r => r.2.2)

/-- One row of the user exercise-log data frame; the `calories_burned` cell
may be missing. -/
structure ExEntry where
  date : String
  exercise_type : String
  duration : ℚ
  intensity : String
  calories_burned : Option ℚ
deriving DecidableEq, Repr

/-- `ActivityTracker.calculate_calories_burned`: only when the
`calories_burned` column is absent or entirely missing, every row gets
`MET(type) × weight × duration/60`; otherwise the frame is untouched. -/
def calculate_calories_burned (df : List ExEntry) (user_weight : ℚ) :
    List ExEntry :=
  if df.all (fun e => e.calories_burned.isNone) then
    df.map (fun e =>
      let cal := metValue e.exercise_type * user_weight * (e.duration / 60)
      { e with calories_burned := some cal })
  else df

/-- The `fitness_gaps` dictionary: at most one entry per metric. -/
structure FitnessGaps where
  cardio_duration : Option GapEntry
  exercise_variety : Option GapEntry
  strength_training : Option GapEntry
  flexibility : Option GapEntry
deriving DecidableEq, Repr

/-- Count of log rows whose joined category equals `c`. -/
def categoryCount (df : List ExEntry) (c : String) : ℕ :=
  (df.filter (fun e => categoryOf e.exercise_type = some c)).length

/-- Total `duration` over the log. -/
def totalDuration (df : List ExEntry) : ℚ := (df.map (·.duration)).sum

/-- Number of distinct exercise types in the log (`nunique`). -/
def uniqueExercises (df : List ExEntry) : ℕ :=
  ((df.map (·.exercise_type)).dedup).length

/-- `ActivityTracker.identify_fitness_gaps`. -/
def identify_fitness_gaps (df : List ExEntry) : FitnessGaps :=
  { cardio_duration :=
      if totalDuration df < 150 then
        some ⟨totalDuration df, 150, 150 - totalDuration df⟩
      else none
    exercise_variety :=
      if uniqueExercises df < 3 then
        some ⟨(uniqueExercises df : ℚ), 3, 3 - (uniqueExercises df : ℚ)⟩
      else none
    strength_training :=
      if categoryCount df "Strength" < 2 then
        some ⟨(categoryCount df "Strength" : ℚ), 2,
          2 - (categoryCount df "Strength" : ℚ)⟩
      else none
    flexibility :=
      if categoryCount df "Flexibility" < 1 then
        some ⟨(categoryCount df "Flexibility" : ℚ), 2,
          2 - (categoryCount df "Flexibility" : ℚ)⟩
      else none }

/-- The `activity_patterns` dictionary. -/
structure ActivityPatterns where
  exercises_per_week : ℚ
  common_exercises : List (String × ℕ)
  avg_duration_minutes : ℚ
  total_weekly_duration : ℚ
  intensity_distribution : List (String × ℚ)
  category_distribution : List (String × ℚ)
deriving DecidableEq, Repr

/-- `ActivityTracker.analyze_activity_patterns` (the category distribution is
over the rows with a known category, `value_counts` dropping NaN). -/
def analyze_activity_patterns (df : List ExEntry) : ActivityPatterns :=
  let knownCats := df.filterMap (fun e => categoryOf e.exercise_type)
  { exercises_per_week :=
      (if df.length > 0 then (df.length : ℚ) / 30 else 0) * 7
    common_exercises := (valueCounts (df.map (·.exercise_type))).take 5
    avg_duration_minutes :=
      if df = [] then 0 else totalDuration df / (df.length : ℚ)
    total_weekly_duration := totalDuration df
    intensity_distribution :=
      (valueCounts (df.map (·.intensity))).map
        (fun p => (p.1, (p.2 : ℚ) / (df.length : ℚ)))
    category_distribution :=
      if df = [] then []
      else
        (valueCounts knownCats).map
          (fun p => (p.1, (p.2 : ℚ) / (knownCats.length : ℚ))) }

/-- Plain decimal rendering of a rational for the f-string interpolations. -/
def ratStr (q : ℚ) : String :=
  if q.den = 1 then toString q.num
  else toString q.num ++ "/" ++ toString q.den

/-- `ActivityTracker.generate_exercise_recommendations`; the gap loop runs in
dictionary insertion order cardio, variety, strength, flexibility. -/
def generate_exercise_recommendations (p : ActivityPatterns)
    (g : FitnessGaps) : List String :=
  (match g.cardio_duration with
    | some gi =>
        ["Increase cardio by " ++ ratStr gi.deficit ++
          " minutes per week. Try walking, cycling, or swimming."]
    | none => []) ++
  (match g.exercise_variety with
    | some _ =>
        ["Try new activities to increase exercise variety and prevent boredom."]
    | none => []) ++
  (match g.strength_training with
    | some gi =>
        ["Add " ++ ratStr gi.deficit ++
          " strength training sessions per week. Focus on major muscle groups."]
    | none => []) ++
  (match g.flexibility with
    | some _ =>
        ["Include yoga or stretching sessions for flexibility and recovery."]
    | none => []) ++
  (if p.exercises_per_week < 3 then
    ["Aim for at least 3-4 exercise sessions per week for optimal health benefits."]
  else []) ++
  (if p.avg_duration_minutes < 30 then
    ["Try to exercise for at least 30 minutes per session for better results."]
  else [])

/-- The value returned by `analyze_activity_logs`. -/
structure ActivityAnalysis where
  activity_patterns : ActivityPatterns
  fitness_gaps : FitnessGaps
  recommendations : List String
  total_calories_burned : ℚ
deriving DecidableEq, Repr

/-- `ActivityTracker.get_default_analysis`: the canned fallback for an empty
exercise log. -/
def get_default_activity_analysis : ActivityAnalysis :=
  { activity_patterns := ⟨0, [], 0, 0, [], []⟩
    fitness_gaps :=
      { cardio_duration := some ⟨0, 150, 150⟩
        exercise_variety := none
        strength_training := some ⟨0, 2, 2⟩
        flexibility := some ⟨0, 2, 2⟩ }
    recommendations :=
      ["Start with 150 minutes of moderate cardio per week",
        "Include 2 strength training sessions weekly",
        "Add flexibility exercises like yoga or stretching",
        "Begin with activities you enjoy to build consistency"]
    total_calories_burned := 0 }

/-- `ActivityTracker.analyze_activity_logs`. -/
def analyze_activity_logs (df : List ExEntry) (user_weight : ℚ) :
    ActivityAnalysis :=
  if df = [] then get_default_activity_analysis
  else
    let df2 := calculate_calories_burned df user_weight
    let patterns := analyze_activity_patterns df2
    let gaps := identify_fitness_gaps df2
    { activity_patterns := patterns
      fitness_gaps := gaps
      recommendations := generate_exercise_recommendations patterns gaps
      total_calories_burned := (df2.filterMap (·.calories_burned)).sum }

/-- State of the caller's exercise-log data frame after
`analyze_activity_logs` returns: `calculate_calories_burned` assigns the
computed column into the frame that was passed in. -/
def exercise_df_after_analyze (df : List ExEntry) (user_weight : ℚ) :
    List ExEntry :=
  if df = [] then df else calculate_calories_burned df user_weight

/-! Progress predictor (progress_predictor.py) and the BMR calculator shared
with recommendation_engine.py. -/

/-- `calculate_bmr` (revised Harris-Benedict), identical in
progress_predictor.py and recommendation_engine.py; the gender test is
`gender.lower() == "male"`. -/
def calculate_bmr (age weight height : ℚ) (gender : String) : ℚ :=
  if gender.toLower = "male" then
    88.362 + 13.397 * weight + 4.799 * height - 5.677 * age
  else
    447.593 + 9.247 * weight + 3.098 * height - 4.330 * age

/-- The `activity_multipliers` table of `calculate_caloric_needs`, default
1.55 for an unrecognized level. -/
def activity_multiplier (level : String) : ℚ :=
  if level = "Low" then 1.2
  else if level = "Moderate" then 1.55
  else if level = "High" then 1.725
  else 1.55

/-- `RecommendationEngine.calculate_caloric_needs`: `round(bmr * multiplier)`,
an integer. -/
def calculate_caloric_needs (age weight height : ℚ)
    (gender activity_level : String) : ℤ :=
  pyRound (calculate_bmr age weight height gender *
    activity_multiplier activity_level)

/-- The `activity_mapping` table used by the predictor features, default 2. -/
def activityLevelNum (level : String) : ℚ :=
  if level = "Low" then 1
  else if level = "Moderate" then 2
  else if level = "High" then 3
  else 2

/-- The user profile fields read by the predictor. -/
structure UserData where
  age : ℚ
  gender : String
  height : ℚ
  weight : ℚ
  activity_level : String
deriving DecidableEq, Repr

/-- A nutrition plan as read by `estimate_calories_from_plan`: one element
per day; a day that is a dictionary carries the truthiness of its meal
slots, a day of any other shape is `none`. -/
abbrev NutritionPlan : Type := List (Option (List Bool))

/-- An exercise plan as read by `estimate_exercise_from_plan`: one element
per day; a day that is a dictionary with an `exercises` key carries the
durations of its exercises, any other day is `none`. -/
abbrev ExercisePlan : Type := List (Option (List ℚ))

/-- `ProgressPredictor.estimate_calories_from_plan`. -/
def estimate_calories_from_plan (nplan : NutritionPlan) : ℚ :=
  let total_meals : ℕ :=
    (nplan.map (fun day =>
      match day with
      | some meals => (meals.filter id).length
      | none => 0)).sum
  if total_meals > 0 then
    let avg : ℚ := (total_meals : ℚ) / (nplan.length : ℚ)
    min (max (avg * 500) 1200) 3000
  else 2000

/-- `ProgressPredictor.estimate_exercise_from_plan`: total duration, average
calories burned per active day, and day frequency. -/
def estimate_exercise_from_plan (eplan : ExercisePlan) : ℚ × ℚ × ℕ :=
  let total_duration : ℚ :=
    (eplan.map (fun day =>
      match day with
      | some durs => durs.sum
      | none => 0)).sum
  let frequency : ℕ := (eplan.filter (fun day => day.isSome)).length
  let total_calories : ℚ := total_duration * 5
  let avg : ℚ :=
    if frequency > 0 then total_calories / (max frequency 1 : ℕ) else 0
  (total_duration, avg, frequency)

/-- `ProgressPredictor.prepare_prediction_features`: the 17-element feature
vector built from the profile, the plans, and the current projected weight
and energy. -/
def prepare_prediction_features (u : UserData) (nplan : NutritionPlan)
    (eplan : ExercisePlan) (cw ce : ℚ) : List ℚ :=
  let estCal := estimate_calories_from_plan nplan
  let ex := estimate_exercise_from_plan eplan
  let bmr := calculate_bmr u.age cw u.height u.gender
  let dailyExp := bmr * activityLevelNum u.activity_level * 0.5
  [u.age,
    if u.gender = "Male" then 1 else 0,
    u.height,
    cw,
    cw / ((u.height / 100) ^ 2),
    ce,
    activityLevelNum u.activity_level,
    estCal,
    estCal * 0.15 / 4,
    estCal * 0.55 / 4,
    estCal * 0.30 / 9,
    25,
    ex.1,
    ex.2.1,
    (ex.2.2 : ℚ),
    estCal - dailyExp]

/-- One weekly prediction entry (the wall-clock `date` field is omitted). -/
structure WeekPred where
  weight : ℚ
  bmi : ℚ
  energy_level : ℚ
  weight_change : ℚ
deriving DecidableEq, Repr

/-- `ProgressPredictor.get_default_week_prediction`: the minimal entry
substituted for a failed step. -/
def get_default_week_prediction (cw : ℚ) : WeekPred :=
  { weight := round1 (cw + 0.1)
    bmi := round1 (cw / (1.7 ^ 2))
    energy_level := 6
    weight_change := 0.1 }

/-- An opaque trained model with its scaler: from a feature vector to the
predicted (weight, bmi, energy), `none` when `predict` raises. -/
abbrev Model : Type := List ℚ → Option (ℚ × ℚ × ℚ)

/-- The week loop of `ProgressPredictor.predict_progress` on the trained
path: clamp each successful prediction and feed the clamped weight and
energy forward; substitute the default entry on failure and keep the
previous state. -/
def predictLoop (model : Model) (u : UserData) (nplan : NutritionPlan)
    (eplan : ExercisePlan) : ℕ → ℕ → ℚ → ℚ → List (ℕ × WeekPred)
  | 0, _, _, _ => []
  | rem + 1, wk, cw, ce =>
    match model (prepare_prediction_features u nplan eplan cw ce) with
    | some (pw, pb, pe) =>
      let pw2 := max 30 (min 200 pw)
      let pb2 := max 15 (min 50 pb)
      let pe2 := max 1 (min 10 pe)
      (wk, ⟨round1 pw2, round1 pb2, round1 pe2, round1 (pw2 - cw)⟩) ::
        predictLoop model u nplan eplan rem (wk + 1) pw2 pe2
    | none =>
      (wk, get_default_week_prediction cw) ::
        predictLoop model u nplan eplan rem (wk + 1) cw ce

/-- `ProgressPredictor.get_default_predictions`: the untrained linear
fallback, 0.2 kg per week, energy fixed at 6.0, no clamping. -/
def get_default_predictions (u : UserData) (weeks : ℕ) :
    List (ℕ × WeekPred) :=
  (List.range weeks).map (fun i =>
    let wk : ℕ := i + 1
    let pw := u.weight + 0.2 * (wk : ℚ)
    (wk, ⟨round1 pw, round1 (pw / ((u.height / 100) ^ 2)), 6,
      round1 (0.2 * (wk : ℚ))⟩))

/-- `ProgressPredictor.predict_progress`: fall back when untrained,
otherwise run the autoregressive week loop from the profile weight and the
default energy 5. -/
def predict_progress (is_trained : Bool) (model : Model) (u : UserData)
    (nplan : NutritionPlan) (eplan : ExercisePlan) (weeks_ahead : ℕ) :
    List (ℕ × WeekPred) :=
  if is_trained = false then get_default_predictions u weeks_ahead
  else predictLoop model u nplan eplan weeks_ahead 1 u.weight 5

/-! View-level characterization of the missing-value handling, and concrete
demonstration inputs used by witnesses and counterexamples. -/

/-- The two columns `handle_missing_values` reads for one macro: the
`food_item` key and the macro cell of each row. -/
def viewOf (df : List FoodEntry) (n : Nutrient) : List (String × Option ℚ) :=
  df.map (fun e => (e.food_item, valOf e n))

/-- Mean of the non-missing cells belonging to one item, stated on the
two-column view. -/
def item_mean_v (cv : List (String × Option ℚ)) (item : String) : Option ℚ :=
  listMean ((cv.filter (fun p => p.1 = item)).filterMap (fun p => p.2))

/-- Mean of the column after the per-item fill, stated on the view. -/
def col_mean_v (cv : List (String × Option ℚ)) : Option ℚ :=
  listMean (cv.filterMap (fun p =>
    match p.2 with
    | some v => some v
    | none => item_mean_v cv p.1))

/-- The value a cell holds after both fills: kept if present, else the
same-item mean, else the post-item-fill column mean (which is `none` when
the whole column is missing, so such a cell stays missing). -/
def filled_v (cv : List (String × Option ℚ)) (p : String × Option ℚ) :
    Option ℚ :=
  match p.2 with
  | some v => some v
  | none =>
    match item_mean_v cv p.1 with
    | some m => some m
    | none => col_mean_v cv

/-- A one-day, one-row food log with every macro present. -/
def demoFood : List FoodEntry :=
  [⟨"d1", "Breakfast", "Apple", some 100, some 5, some 10, some 2, some 1⟩]

/-- A one-row food log whose calories column is entirely missing. -/
def demoMissingCal : List FoodEntry :=
  [⟨"d1", "Breakfast", "Apple", none, some 1, some 1, some 1, some 1⟩]

/-- A food log with one populated and one missing calories cell for the same
item. -/
def demoFoodPartial : List FoodEntry :=
  [⟨"d1", "Breakfast", "Apple", some 2, some 1, some 1, some 1, some 1⟩,
    ⟨"d1", "Lunch", "Apple", none, some 1, some 1, some 1, some 1⟩]

/-- An exercise log with a populated and a missing `calories_burned` cell. -/
def demoExMixed : List ExEntry :=
  [⟨"d1", "Running", 30, "High", some 100⟩,
    ⟨"d2", "Running", 30, "High", none⟩]

/-- An exercise log whose `calories_burned` column is entirely missing. -/
def demoExNone : List ExEntry :=
  [⟨"d1", "Running", 30, "High", none⟩]

/-- An exercise log with `calories_burned` populated on every row. -/
def demoExFull : List ExEntry :=
  [⟨"d1", "Yoga", 45, "Low", some 120⟩]

/-- A profile at the upper edge of the plausible weight range. -/
def demoUser : UserData := ⟨30, "Male", 170, 200, "Moderate"⟩

/-- An empty nutrition plan. -/
def demoNPlan : NutritionPlan := []

/-- An empty exercise plan. -/
def demoEPlan : ExercisePlan := []

/-- A model that always predicts weight 70, BMI 22, energy 5. -/
def demoModel : Model := fun _ => some (70, 22, 5)

/-- A model whose predict call always raises. -/
def demoFailModel : Model := fun _ => none

/-! Helper lemmas. -/

theorem floor_le_pyRound (q : ℚ) : ⌊q⌋ ≤ pyRound q := by
  unfold pyRound
  split_ifs <;> omega

theorem pyRound_le_floor_add_one (q : ℚ) : pyRound q ≤ ⌊q⌋ + 1 := by
  unfold pyRound
  split_ifs <;> omega

theorem pyRound_intCast (n : ℤ) : pyRound ((n : ℚ)) = n := by
  unfold pyRound
  rw [Int.floor_intCast]
  rw [if_pos (by norm_num)]

theorem le_pyRound (a : ℤ) (q : ℚ) (h : (a : ℚ) ≤ q) : a ≤ pyRound q :=
  le_trans (Int.le_floor.mpr h) (floor_le_pyRound q)

theorem pyRound_le (q : ℚ) (b : ℤ) (h : q ≤ (b : ℚ)) : pyRound q ≤ b := by
  have hfl : ⌊q⌋ ≤ b := by
    have h2 := Int.floor_le_floor h
    rwa [Int.floor_intCast] at h2
  rcases lt_or_eq_of_le hfl with hlt | heq
  · have h2 := pyRound_le_floor_add_one q
    omega
  · have hbq : (b : ℚ) ≤ q := by
      rw [← heq]
      exact Int.floor_le q
    have hq : q = (b : ℚ) := le_antisymm h hbq
    rw [hq, pyRound_intCast]

theorem round1_bounds (a b : ℤ) (q : ℚ) (h1 : (a : ℚ) ≤ q) (h2 : q ≤ (b : ℚ)) :
    (a : ℚ) ≤ round1 q ∧ round1 q ≤ (b : ℚ) := by
  have hl : (10 * a : ℤ) ≤ pyRound (10 * q) :=
    le_pyRound _ _ (by push_cast; linarith)
  have hr : pyRound (10 * q) ≤ (10 * b : ℤ) :=
    pyRound_le _ _ (by push_cast; linarith)
  unfold round1
  constructor
  · rw [le_div_iff₀ (by norm_num : (0 : ℚ) < 10)]
    have hc : ((10 * a : ℤ) : ℚ) ≤ (pyRound (10 * q) : ℚ) := by exact_mod_cast hl
    push_cast at hc ⊢
    linarith
  · rw [div_le_iff₀ (by norm_num : (0 : ℚ) < 10)]
    have hc : (pyRound (10 * q) : ℚ) ≤ ((10 * b : ℤ) : ℚ) := by exact_mod_cast hr
    push_cast at hc ⊢
    linarith

theorem gapFor_isSome_iff (c r : ℚ) :
    (gapFor c r).isSome = true ↔ c < (8/10) * r := by
  rw [mul_comm]
  unfold gapFor
  split_ifs with h <;> simp [h]

theorem gapFor_eq_some (c r : ℚ) (g : GapEntry) (h : gapFor c r = some g) :
    g = ⟨c, r, r - c⟩ := by
  unfold gapFor at h
  split_ifs at h
  exact (Option.some_injective _ h).symm

theorem map_eq_self_of_mem (l : List α) (f : α → α) (h : ∀ e ∈ l, f e = e) :
    l.map f = l := by
  induction l with
  | nil => rfl
  | cons a t ih =>
    simp only [List.map_cons]
    rw [h a (List.mem_cons_self a t), ih (fun e he => h e (List.mem_cons_of_mem a he))]

theorem item_fill_complete (df : List FoodEntry) (n : Nutrient)
    (h : ∀ e ∈ df, (valOf e n).isSome = true) : item_fill df n = df := by
  unfold item_fill
  apply map_eq_self_of_mem
  intro e he
  rcases Option.isSome_iff_exists.mp (h e he) with ⟨v, hv⟩
  rw [hv]

theorem fill_column_complete (df : List FoodEntry) (n : Nutrient)
    (h : ∀ e ∈ df, (valOf e n).isSome = true) : fill_column df n = df := by
  unfold fill_column
  rw [item_fill_complete df n h]
  apply map_eq_self_of_mem
  intro e he
  rcases Option.isSome_iff_exists.mp (h e he) with ⟨v, hv⟩
  rw [hv]

theorem handle_missing_values_complete (df : List FoodEntry)
    (h : ∀ e ∈ df, ∀ n, (valOf e n).isSome = true) :
    handle_missing_values df = df := by
  show fill_column (fill_column (fill_column (fill_column
    (fill_column df .calories) .protein) .carbs) .fat) .fiber = df
  rw [fill_column_complete df .calories (fun e he => h e he .calories),
    fill_column_complete df .protein (fun e he => h e he .protein),
    fill_column_complete df .carbs (fun e he => h e he .carbs),
    fill_column_complete df .fat (fun e he => h e he .fat),
    fill_column_complete df .fiber (fun e he => h e he .fiber)]

theorem calc_cal_fills (df : List ExEntry) (w : ℚ)
    (h : ∀ e ∈ df, e.calories_burned = none) :
    calculate_calories_burned df w = df.map (fun e =>
      { e with calories_burned := some (metValue e.exercise_type * w * (e.duration / 60)) }) := by
  unfold calculate_calories_burned
  rw [if_pos]
  rw [List.all_eq_true]
  intro e he
  rw [Option.isNone_iff_eq_none]
  exact h e he

theorem calc_cal_noop (df : List ExEntry) (w : ℚ)
    (h : ∃ e ∈ df, e.calories_burned ≠ none) :
    calculate_calories_burned df w = df := by
  unfold calculate_calories_burned
  rw [if_neg]
  intro hall
  rcases h with ⟨e, he, hne⟩
  rw [List.all_eq_true] at hall
  exact hne (Option.isNone_iff_eq_none.mp (hall e he))

theorem food_item_setVal (e : FoodEntry) (m : Nutrient) (v : Option ℚ) :
    (setVal e m v).food_item = e.food_item := by
  cases m <;> rfl

theorem valOf_setVal (e : FoodEntry) (m n : Nutrient) (v : Option ℚ) :
    valOf (setVal e m v) n = if n = m then v else valOf e n := by
  cases m <;> cases n <;> simp [setVal, valOf]

theorem filterMap_congr_fun (l : List α) (f g : α → Option β)
    (h : ∀ a ∈ l, f a = g a) : l.filterMap f = l.filterMap g := by
  induction l with
  | nil => rfl
  | cons a t ih =>
    rw [List.filterMap_cons, List.filterMap_cons,
      h a (List.mem_cons_self a t), ih (fun e he => h e (List.mem_cons_of_mem a he))]

theorem item_mean_view (df : List FoodEntry) (it : String) (n : Nutrient) :
    item_mean df it n = item_mean_v (viewOf df n) it := by
  unfold item_mean item_mean_v viewOf
  rw [List.filter_map, List.filterMap_map]
  rfl

theorem valOf_setVal_same (e : FoodEntry) (n : Nutrient) (v : Option ℚ) :
    valOf (setVal e n v) n = v := by
  cases n <;> rfl

theorem viewOf_map (l : List FoodEntry) (n : Nutrient)
    (F : String × Option ℚ → Option ℚ) :
    (viewOf l n).map F = l.map (fun e => F (e.food_item, valOf e n)) := by
  unfold viewOf
  rw [List.map_map]
  rfl

theorem viewOf_filterMap (l : List FoodEntry) (n : Nutrient)
    (F : String × Option ℚ → Option ℚ) :
    (viewOf l n).filterMap F = l.filterMap (fun e => F (e.food_item, valOf e n)) := by
  unfold viewOf
  rw [List.filterMap_map]
  rfl

theorem column_mean_view (df : List FoodEntry) (n : Nutrient) :
    column_mean_filled df n = col_mean_v (viewOf df n) := by
  unfold column_mean_filled col_mean_v item_fill
  rw [viewOf_filterMap, List.filterMap_map]
  apply congrArg listMean
  apply filterMap_congr_fun
  intro e _
  dsimp [Function.comp]
  cases hv : valOf e n with
  | some v => simp only [hv]
  | none => simp only [hv, valOf_setVal_same, ← item_mean_view]

theorem fill_column_view (df : List FoodEntry) (n : Nutrient) :
    (fill_column df n).map (fun e => valOf e n) =
      (viewOf df n).map (filled_v (viewOf df n)) := by
  unfold fill_column item_fill
  rw [viewOf_map, List.map_map, List.map_map]
  apply List.map_congr_left
  intro e _
  dsimp [Function.comp]
  unfold filled_v
  cases hv : valOf e n with
  | some v => simp only [hv]
  | none =>
    simp only [hv, valOf_setVal_same]
    cases him : item_mean df e.food_item n with
    | some m => simp only [him, valOf_setVal_same, ← item_mean_view]
    | none =>
      simp only [him, valOf_setVal_same, ← item_mean_view, ← column_mean_view]

theorem viewOf_fill_column (df : List FoodEntry) (m n : Nutrient)
    (h : n ≠ m) : viewOf (fill_column df m) n = viewOf df n := by
  have hview : ∀ (l : List FoodEntry),
      viewOf l n = l.map (fun e => (e.food_item, valOf e n)) := fun l => rfl
  rw [hview, hview]
  unfold fill_column item_fill
  rw [List.map_map, List.map_map]
  apply List.map_congr_left
  intro e _
  dsimp [Function.comp]
  cases hv : valOf e m with
  | some v => simp only [hv]
  | none =>
    simp only [hv, valOf_setVal_same]
    cases him : item_mean df e.food_item m with
    | some mv =>
      simp [him, food_item_setVal, valOf_setVal, h]
    | none =>
      simp [him, food_item_setVal, valOf_setVal, h]

theorem viewOf_map_snd (l : List FoodEntry) (n : Nutrient) :
    l.map (fun e => valOf e n) = (viewOf l n).map Prod.snd := by
  unfold viewOf
  rw [List.map_map]
  rfl

theorem handle_missing_values_view (df : List FoodEntry) (n : Nutrient) :
    (handle_missing_values df).map (fun e => valOf e n) =
      (viewOf df n).map (filled_v (viewOf df n)) := by
  show (fill_column (fill_column (fill_column (fill_column
    (fill_column df .calories) .protein) .carbs) .fat) .fiber).map
      (fun e => valOf e n) = _
  cases n with
  | calories =>
    rw [viewOf_map_snd, viewOf_fill_column _ .fiber .calories (by decide),
      viewOf_fill_column _ .fat .calories (by decide),
      viewOf_fill_column _ .carbs .calories (by decide),
      viewOf_fill_column _ .protein .calories (by decide),
      ← viewOf_map_snd]
    exact fill_column_view df .calories
  | protein =>
    rw [viewOf_map_snd, viewOf_fill_column _ .fiber .protein (by decide),
      viewOf_fill_column _ .fat .protein (by decide),
      viewOf_fill_column _ .carbs .protein (by decide),
      ← viewOf_map_snd, fill_column_view _ .protein,
      viewOf_fill_column _ .calories .protein (by decide)]
  | carbs =>
    rw [viewOf_map_snd, viewOf_fill_column _ .fiber .carbs (by decide),
      viewOf_fill_column _ .fat .carbs (by decide),
      ← viewOf_map_snd, fill_column_view _ .carbs,
      viewOf_fill_column _ .protein .carbs (by decide),
      viewOf_fill_column _ .calories .carbs (by decide)]
  | fat =>
    rw [viewOf_map_snd, viewOf_fill_column _ .fiber .fat (by decide),
      ← viewOf_map_snd, fill_column_view _ .fat,
      viewOf_fill_column _ .carbs .fat (by decide),
      viewOf_fill_column _ .protein .fat (by decide),
      viewOf_fill_column _ .calories .fat (by decide)]
  | fiber =>
    rw [fill_column_view _ .fiber,
      viewOf_fill_column _ .fat .fiber (by decide),
      viewOf_fill_column _ .carbs .fiber (by decide),
      viewOf_fill_column _ .protein .fiber (by decide),
      viewOf_fill_column _ .calories .fiber (by decide)]

theorem item_mean_v_of_all_none (cv : List (String × Option ℚ))
    (h : ∀ p ∈ cv, p.2 = none) (it : String) : item_mean_v cv it = none := by
  unfold item_mean_v
  have : (cv.filter (fun p => p.1 = it)).filterMap (fun p => p.2) = [] := by
    rw [List.filterMap_eq_nil_iff]
    intro p hp
    exact h p (List.mem_of_mem_filter hp)
  rw [this]
  rfl

theorem col_mean_v_of_all_none (cv : List (String × Option ℚ))
    (h : ∀ p ∈ cv, p.2 = none) : col_mean_v cv = none := by
  unfold col_mean_v
  have : (cv.filterMap (fun p =>
      match p.2 with
      | some v => some v
      | none => item_mean_v cv p.1)) = [] := by
    rw [List.filterMap_eq_nil_iff]
    intro p hp
    rw [h p hp]
    exact item_mean_v_of_all_none cv h p.1
  rw [this]
  rfl

theorem filled_v_of_all_none (cv : List (String × Option ℚ))
    (h : ∀ p ∈ cv, p.2 = none) (p : String × Option ℚ) (hp : p ∈ cv) :
    filled_v cv p = none := by
  unfold filled_v
  rw [h p hp, item_mean_v_of_all_none cv h, col_mean_v_of_all_none cv h]

theorem predictLoop_keys (model : Model) (u : UserData) (np : NutritionPlan)
    (ep : ExercisePlan) : ∀ (rem wk : ℕ) (cw ce : ℚ),
    (predictLoop model u np ep rem wk cw ce).map Prod.fst =
      List.range' wk rem := by
  intro rem
  induction rem with
  | zero => intro wk cw ce; rfl
  | succ m ih =>
    intro wk cw ce
    unfold predictLoop
    cases hv : model (prepare_prediction_features u np ep cw ce) with
    | none => simp [ih, List.range'_succ]
    | some v =>
      obtain ⟨pw, pb, pe⟩ := v
      simp [ih, List.range'_succ]

theorem predictLoop_bounds (model : Model) (u : UserData) (np : NutritionPlan)
    (ep : ExercisePlan) (hm : ∀ f, (model f).isSome = true) :
    ∀ (rem wk : ℕ) (cw ce : ℚ) (p : ℕ × WeekPred),
    p ∈ predictLoop model u np ep rem wk cw ce →
      30 ≤ p.2.weight ∧ p.2.weight ≤ 200 ∧ 15 ≤ p.2.bmi ∧ p.2.bmi ≤ 50 := by
  intro rem
  induction rem with
  | zero =>
    intro wk cw ce p hp
    simp [predictLoop] at hp
  | succ m ih =>
    intro wk cw ce p hp
    rcases Option.isSome_iff_exists.mp
      (hm (prepare_prediction_features u np ep cw ce)) with ⟨v, hv⟩
    obtain ⟨pw, pb, pe⟩ := v
    unfold predictLoop at hp
    rw [hv] at hp
    dsimp only at hp
    rcases List.mem_cons.mp hp with heq | hmem
    · subst heq
      dsimp only
      have hw30 : (30 : ℚ) ≤ max 30 (min 200 pw) := le_max_left _ _
      have hw200 : max 30 (min 200 pw) ≤ (200 : ℚ) :=
        max_le (by norm_num) (min_le_left _ _)
      have hb15 : (15 : ℚ) ≤ max 15 (min 50 pb) := le_max_left _ _
      have hb50 : max 15 (min 50 pb) ≤ (50 : ℚ) :=
        max_le (by norm_num) (min_le_left _ _)
      have h1 := round1_bounds 30 200 (max 30 (min 200 pw))
        (by exact_mod_cast hw30) (by exact_mod_cast hw200)
      have h2 := round1_bounds 15 50 (max 15 (min 50 pb))
        (by exact_mod_cast hb15) (by exact_mod_cast hb50)
      refine ⟨by exact_mod_cast h1.1, by exact_mod_cast h1.2,
        by exact_mod_cast h2.1, by exact_mod_cast h2.2⟩
    · exact ih (wk + 1) _ _ p hmem

/-! Claim theorems. -/

/-- C1: for every non-empty food log and every nutrient of the fixed target
table, the analyzer emits a gap entry if and only if the average daily
intake (mean over the distinct dates present of the per-date sums) is
strictly below 0.8 times the target, and an emitted entry carries
current = average, recommended = target and deficit = target minus
average. -/
theorem C1_nutrition_gap_iff (logs : List FoodEntry) (h : logs ≠ [])
    (n : Nutrient) :
    ((gapOf (analyze_food_logs logs).nutritional_gaps n).isSome = true ↔
      avgDaily (handle_missing_values logs) n < (8/10) * target n) ∧
    (∀ g, gapOf (analyze_food_logs logs).nutritional_gaps n = some g →
      g = ⟨avgDaily (handle_missing_values logs) n, target n,
        target n - avgDaily (handle_missing_values logs) n⟩) := by
  have hng : (analyze_food_logs logs).nutritional_gaps =
      identify_nutritional_gaps
        (calculate_daily_intake (handle_missing_values logs)) := by
    unfold analyze_food_logs
    rw [if_neg h]
  rw [hng]
  cases n <;>
    exact ⟨gapFor_isSome_iff _ _, fun g hg => gapFor_eq_some _ _ g hg⟩

/-- C1 witness: a one-row, 100-kcal log is below 80 percent of every target,
so a calories gap is emitted. -/
theorem C1_nutrition_gap_iff_witness :
    (gapOf (analyze_food_logs demoFood).nutritional_gaps
      Nutrient.calories).isSome = true :=
  (C1_nutrition_gap_iff demoFood (by with_unfolding_all decide)
    Nutrient.calories).1.mpr (by with_unfolding_all decide)

/-- C3 counterexample: in a log with one populated and one missing
`calories_burned` cell, the missing cell is not filled with the MET formula
(claimed value 8.0 MET times 70 kg times 0.5 h = 280): the frame is
returned unchanged. -/
theorem C3_counterexample :
    (calculate_calories_burned demoExMixed 70).map (·.calories_burned) =
      [some 100, none] ∧
    (calculate_calories_burned demoExMixed 70).map (·.calories_burned) ≠
      [some 100, some 280] := by
  with_unfolding_all decide

/-- C3 amended: the MET fallback `MET(type) × weight × duration/60` (default
MET 5.0 for an unknown type) is applied to every row exactly when the
`calories_burned` column is absent or entirely missing; when any row is
already populated, no row is computed. -/
theorem C3_calories_column (df : List ExEntry) (w : ℚ) :
    ((∀ e ∈ df, e.calories_burned = none) →
      calculate_calories_burned df w = df.map (fun e =>
        { e with calories_burned := some (metValue e.exercise_type * w * (e.duration / 60)) })) ∧
    ((∃ e ∈ df, e.calories_burned ≠ none) →
      calculate_calories_burned df w = df) ∧
    (∀ t : String, exercise_data.find? (fun r => r.1 = t) = none →
      metValue t = 5) := by
  refine ⟨calc_cal_fills df w, calc_cal_noop df w, ?_⟩
  intro t ht
  unfold metValue
  rw [ht]
  rfl

/-- C3 witness: on a log whose `calories_burned` column is entirely missing,
every row is computed by the MET formula. -/
theorem C3_calories_column_witness :
    calculate_calories_burned demoExNone 70 = demoExNone.map (fun e =>
      { e with calories_burned := some (metValue e.exercise_type * 70 * (e.duration / 60)) }) :=
  (C3_calories_column demoExNone 70).1 (by with_unfolding_all decide)

/-- C4 counterexample: at age 30, weight 70, height 170, male, Moderate, the
returned daily caloric need (an integer, 2591) differs from
BMR × multiplier = 2591.0916, so the claimed equality fails. -/
theorem C4_counterexample :
    ((calculate_caloric_needs 30 70 170 "male" "Moderate" : ℤ) : ℚ) ≠
      (88.362 + 13.397 * 70 + 4.799 * 170 - 5.677 * 30) * 1.55 := by
  with_unfolding_all decide

/-- C4 amended: the daily caloric need equals BMR × activity_multiplier
rounded to the nearest integer (banker's rounding), with the
Harris-Benedict BMR (gender compared lower-cased) and the multiplier table
Low 1.2, Moderate 1.55, High 1.725, default 1.55. -/
theorem C4_caloric_needs (age weight height : ℚ) (gender level : String)
    (h1 : 0 < age) (h2 : 0 < weight) (h3 : 0 < height) :
    calculate_caloric_needs age weight height gender level =
      pyRound ((if gender.toLower = "male" then
          88.362 + 13.397 * weight + 4.799 * height - 5.677 * age
        else
          447.593 + 9.247 * weight + 3.098 * height - 4.330 * age) *
        (if level = "Low" then 1.2
        else if level = "Moderate" then 1.55
        else if level = "High" then 1.725
        else 1.55)) :=
  rfl

/-- C4 witness: the formula evaluated at a concrete positive input. -/
theorem C4_caloric_needs_witness :
    calculate_caloric_needs 30 70 170 "male" "Moderate" = 2591 :=
  (C4_caloric_needs 30 70 170 "male" "Moderate" (by norm_num) (by norm_num)
    (by norm_num)).trans (by with_unfolding_all rfl)

/-- C5 counterexample: the canned default nutrition analysis carries three
generic recommendation strings, not four. -/
theorem C5_counterexample :
    get_default_analysis.recommendations.length ≠ 4 := by
  with_unfolding_all decide

/-- C5 amended: an empty food log returns the canned default analysis, whose
intake is zero for every nutrient, whose gap set holds full deficits for
exactly calories (2000), protein (50) and fiber (25), and whose
recommendation list holds three generic strings. -/
theorem C5_default_analysis :
    analyze_food_logs [] = get_default_analysis ∧
    (∀ n, intakeOf get_default_analysis.daily_intake n = 0) ∧
    get_default_analysis.nutritional_gaps =
      ⟨some ⟨0, 2000, 2000⟩, some ⟨0, 50, 50⟩, none, none, some ⟨0, 25, 25⟩⟩ ∧
    get_default_analysis.recommendations.length = 3 := by
  refine ⟨rfl, ?_, rfl, rfl⟩
  intro n
  cases n <;> rfl

/-- C6 counterexample: a log whose calories column is entirely missing keeps
the cell missing after missing-value handling; it does not become 0. -/
theorem C6_counterexample :
    (handle_missing_values demoMissingCal).map (·.calories) = [none] ∧
    (handle_missing_values demoMissingCal).map (·.calories) ≠ [some 0] := by
  with_unfolding_all decide

/-- C6 amended: in missing-value handling each macro cell becomes: its own
value if present, else the mean of the same-item entries of the original
column, else the mean of the column as it stands after the per-item fill;
when the whole column is missing both means are undefined and the cell
stays missing (it does not become 0). -/
theorem C6_missing_value_fill (df : List FoodEntry) (n : Nutrient) :
    ((handle_missing_values df).map (fun e => valOf e n) =
      (viewOf df n).map (filled_v (viewOf df n))) ∧
    ((∀ e ∈ df, valOf e n = none) →
      ∀ e ∈ handle_missing_values df, valOf e n = none) := by
  refine ⟨handle_missing_values_view df n, ?_⟩
  intro hall e he
  have hv : valOf e n ∈ (handle_missing_values df).map (fun e => valOf e n) :=
    List.mem_map_of_mem _ he
  rw [handle_missing_values_view df n] at hv
  rcases List.mem_map.mp hv with ⟨p, hp, hpv⟩
  have hallv : ∀ q ∈ viewOf df n, q.2 = none := by
    intro q hq
    rcases List.mem_map.mp hq with ⟨e2, he2, hqe⟩
    rw [← hqe]
    exact hall e2 he2
  rw [← hpv]
  exact filled_v_of_all_none (viewOf df n) hallv p hp

/-- C6 witness: the single all-missing-calories row is still missing after
handling. -/
theorem C6_missing_value_fill_witness :
    valOf ⟨"d1", "Breakfast", "Apple", none, some 1, some 1, some 1, some 1⟩
      Nutrient.calories = none :=
  (C6_missing_value_fill demoMissingCal Nutrient.calories).2
    (by with_unfolding_all decide)
    ⟨"d1", "Breakfast", "Apple", none, some 1, some 1, some 1, some 1⟩
    (by with_unfolding_all decide)

/-- C7: for a non-empty exercise log, the flexibility gap is emitted exactly
when the count of Flexibility-category rows is zero (strictly below 1), and
the emitted entry has recommended 2 and deficit 2 minus the count. -/
theorem C7_flexibility_gap (df : List ExEntry) (h : df ≠ []) :
    (((identify_fitness_gaps df).flexibility).isSome = true ↔
      categoryCount df "Flexibility" = 0) ∧
    (∀ g, (identify_fitness_gaps df).flexibility = some g →
      g = ⟨(categoryCount df "Flexibility" : ℚ), 2,
        2 - (categoryCount df "Flexibility" : ℚ)⟩) := by
  unfold identify_fitness_gaps
  constructor
  · dsimp only
    split_ifs with hf
    · simp only [Option.isSome_some, true_iff]
      omega
    · simp only [Option.isSome_none, Bool.false_eq_true, false_iff]
      omega
  · intro g hg
    dsimp only at hg
    split_ifs at hg
    exact (Option.some_injective _ hg).symm

/-- C7 witness: a log with a single Running row has no Flexibility-category
rows, so the flexibility gap is emitted. -/
theorem C7_flexibility_gap_witness :
    ((identify_fitness_gaps demoExNone).flexibility).isSome = true :=
  (C7_flexibility_gap demoExNone (by with_unfolding_all decide)).1.mpr
    (by with_unfolding_all decide)

/-- C9 counterexample: the analyzers mutate the caller's frames: the
nutrition analyzer fills a missing calories cell in place, and the activity
analyzer writes the computed `calories_burned` column in place. -/
theorem C9_counterexample :
    food_df_after_analyze demoFoodPartial ≠ demoFoodPartial ∧
    exercise_df_after_analyze demoExNone 70 ≠ demoExNone := by
  with_unfolding_all decide

/-- C9 amended: the analyzers leave the caller's frames unchanged exactly
when there is nothing to fill: a food log with every macro cell present,
and an exercise log with at least one populated `calories_burned` cell. -/
theorem C9_read_only_when_complete (fdf : List FoodEntry) (edf : List ExEntry)
    (w : ℚ) :
    ((∀ e ∈ fdf, ∀ n, (valOf e n).isSome = true) →
      food_df_after_analyze fdf = fdf) ∧
    ((∃ e ∈ edf, e.calories_burned ≠ none) →
      exercise_df_after_analyze edf w = edf) := by
  constructor
  · intro hcomp
    unfold food_df_after_analyze
    split_ifs
    · rfl
    · exact handle_missing_values_complete fdf hcomp
  · intro hsome
    unfold exercise_df_after_analyze
    split_ifs
    · rfl
    · exact calc_cal_noop edf w hsome

/-- C9 witness: a fully populated food log and a partially populated
exercise log are returned unchanged. -/
theorem C9_read_only_witness :
    food_df_after_analyze demoFood = demoFood ∧
    exercise_df_after_analyze demoExMixed 70 = demoExMixed :=
  ⟨(C9_read_only_when_complete demoFood demoExMixed 70).1
      (by with_unfolding_all decide),
    (C9_read_only_when_complete demoFood demoExMixed 70).2
      (by with_unfolding_all decide)⟩

/-- C10: the empty-log default activity analysis carries gaps for exactly
cardio_duration, strength_training and flexibility and no exercise_variety
gap, while the live gap computation emits a variety gap with deficit
3 − count for any log with fewer than 3 distinct types — zero included. -/
theorem C10_default_vs_live_variety :
    analyze_activity_logs [] 70 = get_default_activity_analysis ∧
    get_default_activity_analysis.fitness_gaps.cardio_duration =
      some ⟨0, 150, 150⟩ ∧
    get_default_activity_analysis.fitness_gaps.strength_training =
      some ⟨0, 2, 2⟩ ∧
    get_default_activity_analysis.fitness_gaps.flexibility =
      some ⟨0, 2, 2⟩ ∧
    get_default_activity_analysis.fitness_gaps.exercise_variety = none ∧
    (identify_fitness_gaps []).exercise_variety = some ⟨0, 3, 3⟩ ∧
    (∀ df : List ExEntry, uniqueExercises df < 3 →
      (identify_fitness_gaps df).exercise_variety =
        some ⟨(uniqueExercises df : ℚ), 3, 3 - (uniqueExercises df : ℚ)⟩) := by
  refine ⟨rfl, rfl, rfl, rfl, rfl, by with_unfolding_all rfl, ?_⟩
  intro df hdf
  unfold identify_fitness_gaps
  dsimp only
  rw [if_pos hdf]

/-- C10 witness: a one-row log has one distinct type, below 3, so the live
computation emits a variety gap. -/
theorem C10_default_vs_live_variety_witness :
    (identify_fitness_gaps demoExNone).exercise_variety =
      some ⟨(uniqueExercises demoExNone : ℚ), 3,
        3 - (uniqueExercises demoExNone : ℚ)⟩ :=
  C10_default_vs_live_variety.2.2.2.2.2.2 demoExNone
    (by with_unfolding_all decide)

set_option maxRecDepth 10000 in
/-- C2 counterexample: with no trained model and a profile weight of 200 kg,
the one-week fallback projection emits weight 200.2, outside [30, 200], so
the claimed clamping of every path fails. -/
theorem C2_counterexample :
    (predict_progress false demoFailModel demoUser demoNPlan demoEPlan 1).map
      (fun p => p.2.weight) = [1001/5] ∧
    ¬ ((1001/5 : ℚ) ≤ 200) := by
  with_unfolding_all decide

/-- C2 amended: the projection always returns exactly N entries keyed
Week_1 through Week_N; on the trained path with a model whose predict never
raises, every entry is clamped to weight in [30, 200] and BMI in [15, 50];
the untrained fallback and the per-step failure default are not clamped. -/
theorem C2_projection_shape (is_trained : Bool) (model : Model)
    (u : UserData) (np : NutritionPlan) (ep : ExercisePlan) (N : ℕ) :
    (predict_progress is_trained model u np ep N).map Prod.fst =
      List.range' 1 N ∧
    (is_trained = true → (∀ f, (model f).isSome = true) →
      ∀ p ∈ predict_progress is_trained model u np ep N,
        30 ≤ p.2.weight ∧ p.2.weight ≤ 200 ∧
          15 ≤ p.2.bmi ∧ p.2.bmi ≤ 50) := by
  constructor
  · unfold predict_progress
    cases is_trained with
    | false =>
      rw [if_pos rfl]
      unfold get_default_predictions
      rw [List.map_map, List.range'_eq_map_range]
      apply List.map_congr_left
      intro i _
      exact Nat.add_comm i 1
    | true =>
      rw [if_neg (by simp)]
      exact predictLoop_keys model u np ep N 1 u.weight 5
  · intro htr hm p hp
    rw [htr] at hp
    unfold predict_progress at hp
    rw [if_neg (by simp)] at hp
    exact predictLoop_bounds model u np ep hm N 1 u.weight 5 p hp

set_option maxRecDepth 10000 in
/-- C2 witness: a trained model that always predicts weight 70, BMI 22,
energy 5 yields a first-week entry within both ranges. -/
theorem C2_projection_shape_witness :
    30 ≤ (((1, ⟨70, 22, 5, -130⟩) : ℕ × WeekPred)).2.weight ∧
    (((1, ⟨70, 22, 5, -130⟩) : ℕ × WeekPred)).2.weight ≤ 200 ∧
    15 ≤ (((1, ⟨70, 22, 5, -130⟩) : ℕ × WeekPred)).2.bmi ∧
    (((1, ⟨70, 22, 5, -130⟩) : ℕ × WeekPred)).2.bmi ≤ 50 :=
  (C2_projection_shape true demoModel demoUser demoNPlan demoEPlan 2).2 rfl
    (fun _ => rfl) ((1, ⟨70, 22, 5, -130⟩))
    (by with_unfolding_all decide)

/-- C8: when the model raises on the features of the current step, that week
gets the minimal default entry (weight = current + 0.1 rounded, energy 6.0)
and the loop continues with the remaining weeks; the trained projection
always keeps all N week keys whatever the model does. -/
theorem C8_failure_isolation (model : Model) (u : UserData)
    (np : NutritionPlan) (ep : ExercisePlan) (N rem wk : ℕ) (cw ce : ℚ)
    (h : model (prepare_prediction_features u np ep cw ce) = none) :
    predictLoop model u np ep (rem + 1) wk cw ce =
      (wk, ⟨round1 (cw + 0.1), round1 (cw / (1.7 ^ 2)), 6, 0.1⟩) ::
        predictLoop model u np ep rem (wk + 1) cw ce ∧
    (predict_progress true model u np ep N).map Prod.fst =
      List.range' 1 N := by
  constructor
  · conv_lhs => rw [predictLoop]
    rw [h]
    simp [get_default_week_prediction]
  · unfold predict_progress
    rw [if_neg (by simp)]
    exact predictLoop_keys model u np ep N 1 u.weight 5

/-- C8 witness: an always-raising model at weight 200 produces the default
entry for week 1 and continues, and the two-week projection keeps both
week keys. -/
theorem C8_failure_isolation_witness :
    predictLoop demoFailModel demoUser demoNPlan demoEPlan 2 1 200 5 =
      (1, ⟨round1 (200 + 0.1), round1 (200 / (1.7 ^ 2)), 6, 0.1⟩) ::
        predictLoop demoFailModel demoUser demoNPlan demoEPlan 1 2 200 5 ∧
    (predict_progress true demoFailModel demoUser demoNPlan demoEPlan 2).map
      Prod.fst = List.range' 1 2 :=
  C8_failure_isolation demoFailModel demoUser demoNPlan demoEPlan 2 1 1 200 5
    rfl

end Exam
